import Mathlib

/-
Verification of the filter / aggregation / access-control core of
`studio_dashboard.py` (Areve Studio Performance Dashboard).

Shallow embedding conventions:
* a pandas DataFrame is a `List Row`; a missing value (NaN / NaT) is `none`;
* calendar dates are embedded as integers through any order-preserving
  encoding (the concrete examples use the YYYYMMDD encoding, which is
  order-isomorphic to calendar dates);
* the `Weekday` column is the 7-value ordered categorical imposed by
  `load_data` (values outside the 7 categories have already become `none`);
* ratio columns (`CapacityUtilization`, `BookingRate`, `NoShowRate`) are
  rationals; `pandas` float means are exact on the inputs considered here,
  and `NaN` results are `none`.
-/

namespace AreveDashboard

/-- The ordered weekday categorical imposed by `load_data` (lines 68-72):
categories Monday..Sunday, Monday first. -/
inductive Weekday where
  | monday
  | tuesday
  | wednesday
  | thursday
  | friday
  | saturday
  | sunday
deriving DecidableEq, Repr

/-- Position of a weekday in the ordered categorical (Monday = 0). -/
def Weekday.idx : Weekday → Nat
  | .monday => 0
  | .tuesday => 1
  | .wednesday => 2
  | .thursday => 3
  | .friday => 4
  | .saturday => 5
  | .sunday => 6

/-- One session record: a row of `classes_cleaned.csv` after `load_data`.
Column names follow the source (`Date`, `Weekday`, `Hour`, `Disciplina`,
`Entrenador`, count columns, ratio columns).  Every column may hold a
missing value, modelled as `none`; unparseable dates became `none` via
`pd.to_datetime(..., errors="coerce")`. -/
structure Row where
  date : Option Int := none
  startDateTime : Option Int := none
  weekday : Option Weekday := none
  hour : Option Int := none
  disciplina : Option String := none
  entrenador : Option String := none
  capacity : Option Int := none
  bookings : Option Int := none
  attended : Option Int := none
  noShows : Option Int := none
  capacityUtilization : Option ℚ := none
  bookingRate : Option ℚ := none
  noShowRate : Option ℚ := none
deriving DecidableEq

/-- Date-range conjunct of the mask (line 94):
`(df["Date"] >= a) & (df["Date"] <= b)`.  A pandas comparison of `NaT`
with a date is `False`, so a row with a missing date never passes. -/
def dateInRange (a b : Int) (r : Row) : Bool :=
  match r.date with
  | some d => decide (a ≤ d) && decide (d ≤ b)
  | none => false

/-- The row mask of lines 94-98: start from the date-range test, then
`mask &= (df["Disciplina"] == discipline)` only when `discipline != "All"`,
and likewise for `instructor`.  A pandas `==` between a missing cell and a
string is `False`, which `decide (r.disciplina = some discipline)` mirrors. -/
def rowMask (a b : Int) (discipline instructor : String) (r : Row) : Bool :=
  let m := dateInRange a b r
  let m := if discipline ≠ "All" then m && decide (r.disciplina = some discipline) else m
  let m := if instructor ≠ "All" then m && decide (r.entrenador = some instructor) else m
  m

/-- `filtered = df[mask].copy()` (line 100): the rows of `df` passing the
mask, in order, as an independent list. -/
def applyFilter (a b : Int) (discipline instructor : String) (df : List Row) : List Row :=
  df.filter (rowMask a b discipline instructor)

/-- `Series.mean()` with pandas' default `skipna=True`: the mean of the
non-missing entries, or `NaN` (here `none`) when there are none. -/
def nanmean (xs : List (Option ℚ)) : Option ℚ :=
  let vs := xs.filterMap id
  if vs.length = 0 then none else some (vs.sum / (vs.length : ℚ))

/-- KPI `Total Classes` (line 108): `len(filtered)`. -/
def kpiTotalClasses (v : List Row) : Nat := v.length

/-- KPI `Avg Occupancy` (line 109): `filtered["CapacityUtilization"].mean()`. -/
def kpiAvgOccupancy (v : List Row) : Option ℚ :=
  nanmean (v.map Row.capacityUtilization)

/-- KPI `Avg Booking Rate` (line 110): `filtered["BookingRate"].mean()`. -/
def kpiAvgBookingRate (v : List Row) : Option ℚ :=
  nanmean (v.map Row.bookingRate)

/-- KPI `Avg No-Show Rate` (line 111): `filtered["NoShowRate"].mean()`. -/
def kpiAvgNoShowRate (v : List Row) : Option ℚ :=
  nanmean (v.map Row.noShowRate)

/-- Ascending sort of strings, as `sorted(...)` and the default
`sort=True` of `groupby` produce. -/
def sortedStrings (l : List String) : List String :=
  List.insertionSort (fun a b => a ≤ b) l

/-- The observed distinct non-missing values of a string column, sorted
ascending: `sorted(df[col].dropna().unique())` (lines 87, 90), which is
also the key set (and key order) of `groupby(col)` with its defaults
(`sort=True`, `dropna=True`). -/
def observedValues (key : Row → Option String) (v : List Row) : List String :=
  sortedStrings ((v.filterMap key).dedup)

/-- `v.groupby(col, as_index=False)[metric].mean()`: one pair per observed
key, ascending, carrying the skipna mean of the metric over that key's
rows. -/
def groupMean (key : Row → Option String) (metric : Row → Option ℚ) (v : List Row) :
    List (String × Option ℚ) :=
  (observedValues key v).map fun k =>
    (k, nanmean ((v.filter fun r => decide (key r = some k)).map metric))

/-- Lines 117-120: mean `CapacityUtilization` grouped by `Disciplina`. -/
def disciplineChart (v : List Row) : List (String × Option ℚ) :=
  groupMean Row.disciplina Row.capacityUtilization v

/-- Lines 136-139: mean `CapacityUtilization` grouped by `Entrenador`. -/
def instructorChart (v : List Row) : List (String × Option ℚ) :=
  groupMean Row.entrenador Row.capacityUtilization v

/-- One row of the instructor scorecard (lines 194-199):
`AvgOcc = mean CapacityUtilization`, `AvgNoShow = mean NoShowRate`,
`N = group size` (`"size"` counts every row of the group, missing metric
values included). -/
structure ScoreRow where
  entrenador : String
  avgOcc : Option ℚ
  avgNoShow : Option ℚ
  n : Nat
deriving DecidableEq

/-- The scorecard as `groupby("Entrenador").agg(...)` produces it, keyed
ascending, before the display sort of line 200. -/
def scoreUnsorted (v : List Row) : List ScoreRow :=
  (observedValues Row.entrenador v).map fun k =>
    let g := v.filter fun r => decide (r.entrenador = some k)
    { entrenador := k
      avgOcc := nanmean (g.map Row.capacityUtilization)
      avgNoShow := nanmean (g.map Row.noShowRate)
      n := g.length }

/-- The comparator realised by
`sort_values(["AvgOcc","N"], ascending=[False,False])` with pandas'
default `na_position="last"`: descending on `AvgOcc` with `NaN` after
every number, ties broken by descending `N`. -/
def scoreLeB (r1 r2 : ScoreRow) : Bool :=
  match r1.avgOcc, r2.avgOcc with
  | some x, some y => if x = y then decide (r2.n ≤ r1.n) else decide (y ≤ x)
  | some _, none => true
  | none, some _ => false
  | none, none => decide (r2.n ≤ r1.n)

/-- `scoreLeB` as a relation, for `List.insertionSort`. -/
def scoreRel (r1 r2 : ScoreRow) : Prop := scoreLeB r1 r2 = true

instance : DecidableRel scoreRel := fun a b => decEq (scoreLeB a b) true

/-- Line 200: the scorecard sorted by
`sort_values(["AvgOcc","N"], ascending=[False,False])`. -/
def score (v : List Row) : List ScoreRow :=
  List.insertionSort scoreRel (scoreUnsorted v)

/-- Ascending order on `(Weekday, Hour)` keys: the key order `groupby`
produces with the ordered weekday categorical (calendar order) and
numeric hours. -/
def keyLeB (p q : Weekday × Int) : Bool :=
  if p.1.idx = q.1.idx then decide (p.2 ≤ q.2) else decide (p.1.idx ≤ q.1.idx)

/-- `keyLeB` as a relation, for `List.insertionSort`. -/
def keyRel (p q : Weekday × Int) : Prop := keyLeB p q = true

instance : DecidableRel keyRel := fun p q => decEq (keyLeB p q) true

/-- `_heat_df` line 237: `d = df.dropna(subset=["Weekday","Hour", value_col])`.
The metric column is passed as an accessor `value` (the two call sites use
`Row.capacityUtilization` and `Row.noShowRate`). -/
def heatRows (value : Row → Option ℚ) (v : List Row) : List Row :=
  v.filter fun r => r.weekday.isSome && r.hour.isSome && (value r).isSome

/-- The `(Weekday, Hour)` key of a row, when both are present. -/
def rowKey (r : Row) : Option (Weekday × Int) :=
  match r.weekday, r.hour with
  | some w, some h => some (w, h)
  | _, _ => none

/-- The key set of `d.groupby(["Weekday","Hour"], observed=True)` (line 240):
the distinct keys observed in the dropna'd data, in ascending key order
(`observed=True` keeps only observed weekday categories). -/
def heatKeys (value : Row → Option ℚ) (v : List Row) : List (Weekday × Int) :=
  List.insertionSort keyRel ((heatRows value v).filterMap rowKey).dedup

/-- The rows of one `(Weekday, Hour)` group of the dropna'd data. -/
def cellGroup (value : Row → Option ℚ) (v : List Row) (w : Weekday) (h : Int) : List Row :=
  (heatRows value v).filter fun r => decide (r.weekday = some w) && decide (r.hour = some h)

/-- One output cell of `_heat_df` (lines 243-246): the merged
`mean`/`size` record of a `(Weekday, Hour)` group — `value` is the group
mean of the metric, `n` the group size. -/
structure Cell where
  weekday : Weekday
  hour : Int
  value : ℚ
  n : Nat
deriving DecidableEq

/-- The cell aggregated from one key: after dropna every group row has a
present metric, so the pandas group mean is the sum over the group divided
by its size. -/
def heatCell (value : Row → Option ℚ) (v : List Row) (w : Weekday) (h : Int) : Cell :=
  let g := cellGroup value v w h
  { weekday := w
    hour := h
    value := ((g.map value).filterMap id).sum / (g.length : ℚ)
    n := g.length }

/-- `_heat_df(df, value_col, min_n)` (lines 231-255): aggregate the
dropna'd data by `(Weekday, Hour)` and keep only the cells with
`n >= min_n` (`out.query("n >= @min_n")`).  The trailing
`out["Hour"].astype(int)` is the identity here because hours are already
integers. -/
def heatDF (value : Row → Option ℚ) (v : List Row) (minN : Nat) : List Cell :=
  ((heatKeys value v).map fun p => heatCell value v p.1 p.2).filter fun c =>
    decide (minN ≤ c.n)

/-- Per-user Streamlit session state, as the script uses it: the
`authenticated` flag (lines 24-25), the `_pass_try` text-input key, and
the remaining widget keys (the sidebar filter selections), modelled as an
association list. -/
structure SessionState where
  authenticated : Bool
  passTry : Option String
  widgets : List (String × String)
deriving DecidableEq

/-- A fresh session after lines 24-25: `authenticated = False`, no
`_pass_try` entry, no widget state. -/
def initSession : SessionState :=
  { authenticated := false, passTry := none, widgets := [] }

/-- Submitting the passcode field (lines 39-44 and `_login`, lines 27-34):
the text input stores the submitted text under `_pass_try`, then
`on_change` runs `_login`, which sets `authenticated` exactly when the
submission equals the configured passcode. -/
def submitPass (passcode input : String) (s : SessionState) : SessionState :=
  let s1 := { s with passTry := some input }
  if input = passcode then { s1 with authenticated := true } else s1

/-- Lines 46-47: the "Incorrect passcode" error renders only while
unauthenticated and only when `st.session_state.get("_pass_try")` is
truthy, i.e. present and non-empty. -/
def incorrectShown (s : SessionState) : Bool :=
  !s.authenticated &&
    (match s.passTry with
     | some t => !t.isEmpty
     | none => false)

/-- The logout button handler (lines 51-56): `st.session_state.clear()`
followed by a rerun, whose line 24-25 re-initialization restores the
fresh session. -/
def logoutAction (_s : SessionState) : SessionState := initSession

/-- Everything the dashboard branch of the script derives from the
filtered view and displays: KPIs (lines 107-111), the grouped charts
(117-139), the scorecard (194-202) and the two heatmaps (259, 278). -/
structure DashboardView where
  totalClasses : Nat
  avgOccupancy : Option ℚ
  avgBookingRate : Option ℚ
  avgNoShowRate : Option ℚ
  byDiscipline : List (String × Option ℚ)
  byInstructor : List (String × Option ℚ)
  scorecard : List ScoreRow
  occHeat : List Cell
  nsHeat : List Cell
deriving DecidableEq

/-- The full downstream pipeline for one render: filter, then every
aggregation.  The `filtered.empty` guard of line 210 is absorbed:
`heatDF` of an empty view is already empty. -/
def buildDashboard (df : List Row) (a b : Int) (discipline instructor : String)
    (minN : Nat) : DashboardView :=
  let filtered := applyFilter a b discipline instructor df
  { totalClasses := kpiTotalClasses filtered
    avgOccupancy := kpiAvgOccupancy filtered
    avgBookingRate := kpiAvgBookingRate filtered
    avgNoShowRate := kpiAvgNoShowRate filtered
    byDiscipline := disciplineChart filtered
    byInstructor := instructorChart filtered
    scorecard := score filtered
    occHeat := heatDF Row.capacityUtilization filtered minN
    nsHeat := heatDF Row.noShowRate filtered minN }

/-- What one render cycle produces: either the passcode prompt (with or
without the error message) or the dashboard. -/
inductive RenderResult where
  | prompt (incorrectMessage : Bool)
  | dashboard (view : DashboardView)
deriving DecidableEq

/-- One render cycle of the script: lines 38-48 prompt for the passcode
and `st.stop()` while unauthenticated, so the rest of the script (load,
filter, aggregation, display) runs only in the authenticated branch. -/
def renderPage (df : List Row) (a b : Int) (discipline instructor : String)
    (minN : Nat) (s : SessionState) : RenderResult :=
  if s.authenticated then
    RenderResult.dashboard (buildDashboard df a b discipline instructor minN)
  else
    RenderResult.prompt (incorrectShown s)

/-- The two dataframes alive during a render: the cached source `df` and
the derived `filtered`.  Line 100's `.copy()` makes them independent
values. -/
structure PipelineState where
  df : List Row
  filtered : List Row
deriving DecidableEq

/-- Lines 94-100 as a state step: recompute `filtered` from the source. -/
def runFilterStep (a b : Int) (discipline instructor : String)
    (s : PipelineState) : PipelineState :=
  { s with filtered := applyFilter a b discipline instructor s.df }

/-- Any in-place update of the `filtered` frame (such as the
Weekday/Hour coercions of lines 214-222) rewrites only the copy. -/
def mutateFiltered (f : List Row → List Row) (s : PipelineState) : PipelineState :=
  { s with filtered := f s.filtered }

/-- The comparison "mean occupancy of the earlier scorecard row is at
least that of the later row", in the order the display sort actually
uses: a missing mean (`NaN`, sorted last by `na_position="last"`) is
below every present mean. -/
def occGE (x y : Option ℚ) : Prop :=
  match x, y with
  | some a, some b => b ≤ a
  | some _, none => True
  | none, some _ => False
  | none, none => True

/-- Example data: the 2024-01-01 Monday 9:00 Yoga class taught by Ana at
occupancy 0.8 (dates in the order-preserving YYYYMMDD encoding). -/
def yogaRow1 : Row :=
  { date := some 20240101
    weekday := some Weekday.monday
    hour := some 9
    disciplina := some "Yoga"
    entrenador := some "Ana"
    capacity := some 10
    bookings := some 9
    attended := some 8
    noShows := some 1
    capacityUtilization := some (4/5)
    bookingRate := some (9/10)
    noShowRate := some (1/9) }

/-- Example data: the 2024-01-02 Tuesday 9:00 Yoga class taught by Ana at
occupancy 0.6. -/
def yogaRow2 : Row :=
  { date := some 20240102
    weekday := some Weekday.tuesday
    hour := some 9
    disciplina := some "Yoga"
    entrenador := some "Ana"
    capacity := some 10
    bookings := some 7
    attended := some 6
    noShows := some 1
    capacityUtilization := some (3/5)
    bookingRate := some (7/10)
    noShowRate := some (1/7) }

/-- The two-row end-to-end dataset of the spec's property 6. -/
def endToEndDf : List Row := [yogaRow1, yogaRow2]

/-- A row whose `Weekday` and `Hour` are present but whose metric values
are all missing. -/
def nanMetricRow : Row := { weekday := some Weekday.monday, hour := some 9 }

/-- Monday 9:00 row with occupancy 1/2 and a missing no-show rate. -/
def mixRow1 : Row :=
  { weekday := some Weekday.monday
    hour := some 9
    entrenador := some "Ana"
    capacityUtilization := some (1/2) }

/-- Monday 9:00 row with occupancy 7/10 and no-show rate 1/10. -/
def mixRow2 : Row :=
  { weekday := some Weekday.monday
    hour := some 9
    entrenador := some "Ana"
    capacityUtilization := some (7/10)
    noShowRate := some (1/10) }

/-- Dataset in which the same (Monday, 9) cell has two rows with present
occupancy but only one with a present no-show rate. -/
def mixedDf : List Row := [mixRow1, mixRow2]

/-- An unauthenticated session carrying a leftover widget selection. -/
def exSession : SessionState :=
  { authenticated := false, passTry := none, widgets := [("Discipline", "Yoga")] }

/-! Order-theoretic facts about the two sort comparators, needed to apply
`List.sorted_insertionSort`. -/

theorem scoreLeB_total (a b : ScoreRow) : scoreLeB a b = true ∨ scoreLeB b a = true := by
  unfold scoreLeB
  rcases ha : a.avgOcc with _ | x <;> rcases hb : b.avgOcc with _ | y <;>
      simp only [decide_eq_true_eq]
  · omega
  · simp
  · simp
  · by_cases hxy : x = y
    · subst hxy
      simp only [eq_self_iff_true, if_true, decide_eq_true_eq]
      omega
    · have hyx : ¬ y = x := fun h => hxy h.symm
      simp only [if_neg hxy, if_neg hyx, decide_eq_true_eq]
      exact le_total y x

theorem scoreLeB_trans {a b c : ScoreRow} (hab : scoreLeB a b = true)
    (hbc : scoreLeB b c = true) : scoreLeB a c = true := by
  unfold scoreLeB at hab hbc ⊢
  rcases ha : a.avgOcc with _ | x <;> rcases hb : b.avgOcc with _ | y <;>
      rcases hc : c.avgOcc with _ | z <;>
      rw [ha, hb] at hab <;> rw [hb, hc] at hbc <;>
      simp only [decide_eq_true_eq] at hab hbc ⊢
  · omega
  · exact Bool.noConfusion hbc
  · exact Bool.noConfusion hab
  · exact Bool.noConfusion hab
  · exact Bool.noConfusion hbc
  · split_ifs at hab hbc ⊢ <;> simp only [decide_eq_true_eq] at hab hbc ⊢ <;>
      first
        | omega
        | linarith
        | exact absurd (‹x = y›.symm.trans ‹x = z›) ‹¬y = z›
        | exact absurd (‹x = z›.trans ‹y = z›.symm) ‹¬x = y›
        | exact absurd (le_antisymm (‹x = z› ▸ ‹y ≤ x›) ‹z ≤ y›) ‹¬y = z›

instance : IsTotal ScoreRow scoreRel := ⟨scoreLeB_total⟩

instance : IsTrans ScoreRow scoreRel := ⟨fun _ _ _ => scoreLeB_trans⟩

theorem keyLeB_total (p q : Weekday × Int) : keyLeB p q = true ∨ keyLeB q p = true := by
  unfold keyLeB
  split_ifs <;> simp only [decide_eq_true_eq] <;> omega

theorem keyLeB_trans {p q s : Weekday × Int} (hpq : keyLeB p q = true)
    (hqs : keyLeB q s = true) : keyLeB p s = true := by
  unfold keyLeB at hpq hqs ⊢
  split_ifs at hpq hqs ⊢ <;> simp only [decide_eq_true_eq] at hpq hqs ⊢ <;> omega

instance : IsTotal (Weekday × Int) keyRel := ⟨keyLeB_total⟩

instance : IsTrans (Weekday × Int) keyRel := ⟨fun _ _ _ => keyLeB_trans⟩

/-! Characterizations of the mask and of heatmap membership. -/

theorem dateInRange_eq_true {a b : Int} {r : Row} :
    dateInRange a b r = true ↔ ∃ d, r.date = some d ∧ a ≤ d ∧ d ≤ b := by
  unfold dateInRange
  rcases h : r.date with _ | d <;> simp

theorem rowMask_eq_true {a b : Int} {discipline instructor : String} {r : Row} :
    rowMask a b discipline instructor r = true ↔
      dateInRange a b r = true ∧
      (discipline = "All" ∨ r.disciplina = some discipline) ∧
      (instructor = "All" ∨ r.entrenador = some instructor) := by
  unfold rowMask
  by_cases hd : discipline = "All" <;> by_cases hi : instructor = "All" <;>
    simp [hd, hi, Bool.and_eq_true, and_assoc]

theorem rowKey_eq_some {r : Row} {w : Weekday} {h : Int} :
    rowKey r = some (w, h) ↔ r.weekday = some w ∧ r.hour = some h := by
  unfold rowKey
  rcases hw : r.weekday with _ | w' <;> rcases hh : r.hour with _ | h' <;> simp

theorem mem_heatRows {value : Row → Option ℚ} {v : List Row} {r : Row} :
    r ∈ heatRows value v ↔
      r ∈ v ∧ r.weekday.isSome = true ∧ r.hour.isSome = true ∧
        (value r).isSome = true := by
  simp [heatRows, List.mem_filter, Bool.and_eq_true, and_assoc]

theorem mem_heatKeys {value : Row → Option ℚ} {v : List Row} {w : Weekday} {h : Int} :
    (w, h) ∈ heatKeys value v ↔
      ∃ r ∈ v, r.weekday = some w ∧ r.hour = some h ∧ (value r).isSome = true := by
  unfold heatKeys
  rw [List.mem_insertionSort, List.mem_dedup, List.mem_filterMap]
  constructor
  · rintro ⟨r, hr, hk⟩
    obtain ⟨hw, hh⟩ := rowKey_eq_some.1 hk
    obtain ⟨hrv, _, _, hv⟩ := mem_heatRows.1 hr
    exact ⟨r, hrv, hw, hh, hv⟩
  · rintro ⟨r, hr, hw, hh, hv⟩
    exact ⟨r, mem_heatRows.2 ⟨hr, by simp [hw], by simp [hh], hv⟩,
      rowKey_eq_some.2 ⟨hw, hh⟩⟩

theorem mem_heatDF {value : Row → Option ℚ} {v : List Row} {m : Nat} {c : Cell} :
    c ∈ heatDF value v m ↔
      (∃ p ∈ heatKeys value v, heatCell value v p.1 p.2 = c) ∧ m ≤ c.n := by
  unfold heatDF
  rw [List.mem_filter, List.mem_map]
  simp only [decide_eq_true_eq]

theorem heatCell_weekday (value : Row → Option ℚ) (v : List Row) (w : Weekday) (h : Int) :
    (heatCell value v w h).weekday = w := rfl

theorem heatCell_hour (value : Row → Option ℚ) (v : List Row) (w : Weekday) (h : Int) :
    (heatCell value v w h).hour = h := rfl

theorem heatCell_n (value : Row → Option ℚ) (v : List Row) (w : Weekday) (h : Int) :
    (heatCell value v w h).n = (cellGroup value v w h).length := rfl

theorem cellGroup_eq (value : Row → Option ℚ) (v : List Row) (w : Weekday) (h : Int) :
    cellGroup value v w h = v.filter fun r =>
      decide (r.weekday = some w) && decide (r.hour = some h) && (value r).isSome := by
  unfold cellGroup heatRows
  rw [List.filter_filter]
  apply List.filter_congr
  intro r _
  by_cases h1 : r.weekday = some w <;> by_cases h2 : r.hour = some h <;>
    simp [h1, h2]

/-! The claims. -/

/-- C1: for every dataset and every valid inclusive date range `[a, b]`,
`applyFilter` returns a subsequence of the dataset containing exactly the
rows that satisfy the conjunction of the three predicates: the date is
present and lies in `[a, b]` inclusive (so rows with a missing date are
always excluded), the discipline matches exactly unless the sentinel
"All" is selected, and the instructor matches exactly unless "All" is
selected. -/
theorem applyFilter_characterization (a b : Int) (discipline instructor : String)
    (df : List Row) (_hab : a ≤ b) :
    (applyFilter a b discipline instructor df).Sublist df ∧
    ∀ r : Row, r ∈ applyFilter a b discipline instructor df ↔
      (r ∈ df ∧
        (∃ d, r.date = some d ∧ a ≤ d ∧ d ≤ b) ∧
        (discipline = "All" ∨ r.disciplina = some discipline) ∧
        (instructor = "All" ∨ r.entrenador = some instructor)) := by
  refine ⟨List.filter_sublist _, fun r => ?_⟩
  rw [applyFilter, List.mem_filter, rowMask_eq_true, dateInRange_eq_true]

/-- Witness for C1 at the concrete two-row dataset: the Monday row passes
the one-day filter. -/
theorem applyFilter_characterization_witness :
    yogaRow1 ∈ applyFilter 20240101 20240101 "All" "All" endToEndDf :=
  ((applyFilter_characterization 20240101 20240101 "All" "All" endToEndDf
        (by norm_num)).2 yogaRow1).2
    ⟨by simp [endToEndDf], ⟨20240101, rfl, le_refl _, le_refl _⟩, Or.inl rfl, Or.inl rfl⟩

/-- C2 (amended): no cell of `_heat_df` has a supporting count below the
threshold; and at threshold 1 every (weekday, hour) combination having at
least one filtered row with Weekday, Hour AND the metric value present
appears in the result.  (The original claim, quantified over every
combination present in the view regardless of the metric value, fails:
see the counterexample.) -/
theorem heat_threshold (v : List Row) (value : Row → Option ℚ) (m : Nat)
    (w : Weekday) (h : Int) :
    (∀ c ∈ heatDF value v m, m ≤ c.n) ∧
    ((∃ r ∈ v, r.weekday = some w ∧ r.hour = some h ∧ (value r).isSome = true) →
      ∃ c ∈ heatDF value v 1, c.weekday = w ∧ c.hour = h) := by
  constructor
  · intro c hc
    exact (mem_heatDF.1 hc).2
  · rintro ⟨r, hr, hw, hh, hv⟩
    refine ⟨heatCell value v w h, ?_, rfl, rfl⟩
    rw [mem_heatDF]
    refine ⟨⟨(w, h), mem_heatKeys.2 ⟨r, hr, hw, hh, hv⟩, rfl⟩, ?_⟩
    have hmem : r ∈ cellGroup value v w h := by
      unfold cellGroup
      rw [List.mem_filter]
      exact ⟨mem_heatRows.2 ⟨hr, by simp [hw], by simp [hh], hv⟩, by simp [hw, hh]⟩
    rw [heatCell_n]
    exact List.length_pos_of_mem hmem

/-- C2 counterexample: a view containing a (Monday, 9) row whose metric
value is missing.  The combination is present and non-empty in the view,
yet the occupancy heatmap at threshold 1 is empty: the combination is
removed even at the lowest threshold, against the claim's wording. -/
theorem heat_threshold_counterexample :
    nanMetricRow ∈ [nanMetricRow] ∧
    nanMetricRow.weekday = some Weekday.monday ∧
    nanMetricRow.hour = some 9 ∧
    heatDF Row.capacityUtilization [nanMetricRow] 1 = [] := by
  refine ⟨by simp, rfl, rfl, ?_⟩
  simp +decide [heatDF, heatKeys, heatRows, rowKey, nanMetricRow]

/-- Witness for C2 at a concrete input: the (Monday, 9) occupancy cell of
`mixedDf` is in the threshold-1 heatmap and its count is at least 1. -/
theorem heat_threshold_witness :
    1 ≤ (heatCell Row.capacityUtilization mixedDf Weekday.monday 9).n :=
  (heat_threshold mixedDf Row.capacityUtilization 1 Weekday.monday 9).1
    (heatCell Row.capacityUtilization mixedDf Weekday.monday 9)
    (by simp +decide [heatDF, heatKeys, heatRows, rowKey, heatCell, cellGroup,
      mixedDf, mixRow1, mixRow2])

/-- C3: iterating the sorted scorecard, every row's mean occupancy is at
least the next row's (in the NaN-last descending order the sort uses),
and rows with equal mean occupancy appear with weakly decreasing counts. -/
theorem score_sorted (v : List Row) :
    List.Chain' (fun r1 r2 =>
      occGE r1.avgOcc r2.avgOcc ∧ (r1.avgOcc = r2.avgOcc → r2.n ≤ r1.n)) (score v) := by
  have hs : List.Sorted scoreRel (score v) :=
    List.sorted_insertionSort scoreRel (scoreUnsorted v)
  refine List.Pairwise.chain' (List.Pairwise.imp ?_ hs)
  intro r1 r2 h12
  unfold scoreRel scoreLeB at h12
  unfold occGE
  rcases h1 : r1.avgOcc with _ | x <;> rcases h2 : r2.avgOcc with _ | y <;>
      rw [h1, h2] at h12 <;> simp only [decide_eq_true_eq] at h12
  · exact ⟨trivial, fun _ => h12⟩
  · exact Bool.noConfusion h12
  · exact ⟨trivial, fun he => Option.noConfusion he⟩
  · split_ifs at h12 with hxy
    · subst hxy
      exact ⟨le_refl x, fun _ => by simpa using h12⟩
    · refine ⟨by simpa using h12, fun he => absurd (Option.some.inj he) hxy⟩

/-- Witness for C3 at the concrete two-row dataset. -/
theorem score_sorted_witness :
    List.Chain' (fun r1 r2 =>
      occGE r1.avgOcc r2.avgOcc ∧ (r1.avgOcc = r2.avgOcc → r2.n ≤ r1.n))
      (score endToEndDf) :=
  score_sorted endToEndDf

/-- C4 (amended): a fresh session is unauthenticated; submitting the
exact configured secret sets `authenticated = true`; submitting any other
string leaves `authenticated` unchanged (false stays false), and the
"incorrect passcode" error is shown exactly when the wrong submission is
non-empty (an empty submission shows no error — this is where the
original claim fails, see the counterexample); logout resets the whole
session state to the initial form, with no residual widget (filter)
selections. -/
theorem session_guard (passcode t : String) (s : SessionState) :
    initSession.authenticated = false ∧
    (submitPass passcode passcode s).authenticated = true ∧
    (t ≠ passcode → (submitPass passcode t s).authenticated = s.authenticated) ∧
    (t ≠ passcode → s.authenticated = false →
      incorrectShown (submitPass passcode t s) = !t.isEmpty) ∧
    logoutAction s = initSession ∧
    (logoutAction s).widgets = [] := by
  refine ⟨rfl, by simp [submitPass], ?_, ?_, rfl, rfl⟩
  · intro ht
    simp [submitPass, ht]
  · intro ht hs
    simp [submitPass, incorrectShown, ht, hs]

/-- C4 counterexample: with the fallback passcode "areve123", submitting
the empty string (a string different from the secret) leaves the session
unauthenticated — as the claim says — but shows NO error message,
against the claim's "any other string ... yields a user-visible error
message". -/
theorem session_guard_counterexample :
    ("" : String) ≠ "areve123" ∧
    (submitPass "areve123" "" initSession).authenticated = false ∧
    incorrectShown (submitPass "areve123" "" initSession) = false := by
  refine ⟨by decide, by simp +decide [submitPass, initSession],
    by simp +decide [incorrectShown, submitPass, initSession]⟩

/-- Witness for C4 at a concrete input: a wrong non-empty submission on a
session with a leftover filter selection. -/
theorem session_guard_witness :
    (submitPass "areve123" "wrong" exSession).authenticated = false ∧
    incorrectShown (submitPass "areve123" "wrong" exSession) = true ∧
    logoutAction exSession = initSession := by
  have h := session_guard "areve123" "wrong" exSession
  refine ⟨(h.2.2.1 (by decide)).trans rfl, (h.2.2.2.1 (by decide) rfl).trans (by decide),
    h.2.2.2.2.1⟩

/-- C5: in any render cycle whose session is unauthenticated, the result
is only the passcode prompt (with the error flag of the current state):
no dashboard content — load, filter, aggregation or display — is part of
the result.  The `st.stop()` halt is modelled, as an early return of a
prompt-only render result. -/
theorem guard_halts (df : List Row) (a b : Int) (discipline instructor : String)
    (minN : Nat) (s : SessionState) (h : s.authenticated = false) :
    renderPage df a b discipline instructor minN s
      = RenderResult.prompt (incorrectShown s) := by
  simp [renderPage, h]

/-- Witness for C5: the fresh session renders the bare prompt. -/
theorem guard_halts_witness :
    renderPage [] 0 0 "All" "All" 3 initSession = RenderResult.prompt false :=
  guard_halts [] 0 0 "All" "All" 3 initSession rfl

/-- C6: on an empty filtered view every KPI mean is an explicit missing
value (`none`, pandas `NaN`) rather than zero, the class count is zero,
and the heatmap builder returns an empty result for every metric and
every threshold instead of raising. -/
theorem empty_view_results (value : Row → Option ℚ) (m : Nat) :
    kpiAvgOccupancy [] = none ∧ kpiAvgBookingRate [] = none ∧
    kpiAvgNoShowRate [] = none ∧ kpiTotalClasses [] = 0 ∧
    heatDF value [] m = [] :=
  ⟨rfl, rfl, rfl, rfl, rfl⟩

/-- Witness for C6 at the concrete occupancy metric and default
threshold. -/
theorem empty_view_results_witness :
    heatDF Row.capacityUtilization [] 3 = [] :=
  (empty_view_results Row.capacityUtilization 3).2.2.2.2

/-- C7: the filter is idempotent — re-filtering its own output changes
nothing — and, because line 100 copies, recomputing `filtered` reads only
the untouched source: any downstream in-place mutation of the filtered
view (such as the Weekday/Hour coercions) leaves the source dataset
unchanged, so filtering the same dataset again gives the identical
result. -/
theorem filter_pure_and_idempotent (a b : Int) (discipline instructor : String)
    (df : List Row) (f : List Row → List Row) (s : PipelineState) :
    applyFilter a b discipline instructor (applyFilter a b discipline instructor df)
      = applyFilter a b discipline instructor df ∧
    (mutateFiltered f (runFilterStep a b discipline instructor s)).df = s.df ∧
    (runFilterStep a b discipline instructor
        (mutateFiltered f (runFilterStep a b discipline instructor s))).filtered
      = (runFilterStep a b discipline instructor s).filtered := by
  refine ⟨?_, rfl, rfl⟩
  unfold applyFilter
  rw [List.filter_filter]
  apply List.filter_congr
  intro r _
  cases rowMask a b discipline instructor r <;> rfl

/-- Witness for C7 at the concrete two-row dataset. -/
theorem filter_pure_and_idempotent_witness :
    applyFilter 20240101 20240101 "All" "All"
        (applyFilter 20240101 20240101 "All" "All" endToEndDf)
      = applyFilter 20240101 20240101 "All" "All" endToEndDf :=
  (filter_pure_and_idempotent 20240101 20240101 "All" "All" endToEndDf id
      { df := endToEndDf, filtered := [] }).1

/-- C8: on the concrete two-row dataset (2024-01-01 Monday Yoga/Ana at
0.8 and 2024-01-02 Tuesday Yoga/Ana at 0.6), filtering to the one-day
range [2024-01-01, 2024-01-01] keeps exactly one row, and the
discipline-grouped mean occupancy is 0.8 for "Yoga". -/
theorem end_to_end_example :
    (applyFilter 20240101 20240101 "All" "All" endToEndDf).length = 1 ∧
    disciplineChart (applyFilter 20240101 20240101 "All" "All" endToEndDf)
      = [("Yoga", some (4/5))] := by
  constructor
  · simp +decide [applyFilter, rowMask, dateInRange, endToEndDf, yogaRow1, yogaRow2]
  · simp +decide [applyFilter, rowMask, dateInRange, endToEndDf, yogaRow1, yogaRow2,
      disciplineChart, groupMean, observedValues, sortedStrings, nanmean]

/-- C9 (implicit): a heatmap cell's supporting count `n` counts exactly
the view's rows whose Weekday, Hour and chosen metric value are all
present; consequently the occupancy and no-show heatmaps can report
different counts for the same (weekday, hour) cell — as they do on
`mixedDf` — and a combination whose rows all lack the metric value is
absent from the result at every threshold. -/
theorem heat_counts (v : List Row) (value : Row → Option ℚ) (m : Nat)
    (w : Weekday) (h : Int) :
    (∀ c ∈ heatDF value v m,
      c.n = (v.filter fun r =>
        decide (r.weekday = some c.weekday) && decide (r.hour = some c.hour)
          && (value r).isSome).length) ∧
    ((∀ r ∈ v, r.weekday = some w → r.hour = some h → value r = none) →
      ∀ c ∈ heatDF value v m, ¬(c.weekday = w ∧ c.hour = h)) ∧
    heatDF Row.capacityUtilization mixedDf 1 =
      [{ weekday := Weekday.monday, hour := 9, value := 3/5, n := 2 }] ∧
    heatDF Row.noShowRate mixedDf 1 =
      [{ weekday := Weekday.monday, hour := 9, value := 1/10, n := 1 }] := by
  refine ⟨?_, ?_, ?_, ?_⟩
  · intro c hc
    obtain ⟨⟨p, _, hcell⟩, _⟩ := mem_heatDF.1 hc
    subst hcell
    rw [heatCell_n, heatCell_weekday, heatCell_hour, cellGroup_eq]
  · intro hall c hc hwh
    obtain ⟨⟨p, hp, hcell⟩, _⟩ := mem_heatDF.1 hc
    subst hcell
    rw [heatCell_weekday, heatCell_hour] at hwh
    have hpe : p = (w, h) := Prod.ext hwh.1 hwh.2
    rw [hpe] at hp
    obtain ⟨r, hr, hrw, hrh, hrv⟩ := mem_heatKeys.1 hp
    rw [hall r hr hrw hrh] at hrv
    exact Bool.noConfusion hrv
  · simp +decide [heatDF, heatKeys, heatRows, rowKey, heatCell, cellGroup,
      mixedDf, mixRow1, mixRow2]
    norm_num
  · simp +decide [heatDF, heatKeys, heatRows, rowKey, heatCell, cellGroup,
      mixedDf, mixRow1, mixRow2]

/-- Witness for C9 at a concrete input: the no-show cell of `mixedDf`
counts exactly the single row whose no-show rate is present. -/
theorem heat_counts_witness :
    ({ weekday := Weekday.monday, hour := 9, value := (1:ℚ)/10, n := 1 } : Cell).n
      = (mixedDf.filter fun r =>
          decide (r.weekday = some Weekday.monday) && decide (r.hour = some (9 : Int))
            && (Row.noShowRate r).isSome).length :=
  (heat_counts mixedDf Row.noShowRate 1 Weekday.monday 9).1
    { weekday := Weekday.monday, hour := 9, value := (1:ℚ)/10, n := 1 }
    (by simp +decide [heatDF, heatKeys, heatRows, rowKey, heatCell, cellGroup,
      mixedDf, mixRow1, mixRow2])

/-- C10 (implicit): the heatmap builder is antitone in the threshold —
for `m1 ≤ m2`, every cell returned at threshold `m2` is also returned at
threshold `m1` (with the same mean and count, being the same record) and
cells of the two results agreeing on (weekday, hour) are identical. -/
theorem heat_antitone (v : List Row) (value : Row → Option ℚ) (m1 m2 : Nat)
    (h12 : m1 ≤ m2) :
    (∀ c ∈ heatDF value v m2, c ∈ heatDF value v m1) ∧
    (∀ c1 ∈ heatDF value v m1, ∀ c2 ∈ heatDF value v m2,
      c1.weekday = c2.weekday → c1.hour = c2.hour → c1 = c2) := by
  constructor
  · intro c hc
    obtain ⟨hbase, hn⟩ := mem_heatDF.1 hc
    exact mem_heatDF.2 ⟨hbase, le_trans h12 hn⟩
  · intro c1 h1 c2 h2 hw hh
    obtain ⟨⟨p1, _, e1⟩, _⟩ := mem_heatDF.1 h1
    obtain ⟨⟨p2, _, e2⟩, _⟩ := mem_heatDF.1 h2
    subst e1
    subst e2
    rw [heatCell_weekday, heatCell_weekday] at hw
    rw [heatCell_hour, heatCell_hour] at hh
    rw [Prod.ext hw hh]

/-- Witness for C10 at a concrete input: the threshold-2 occupancy cell
of `mixedDf` survives lowering the threshold to 1. -/
theorem heat_antitone_witness :
    ({ weekday := Weekday.monday, hour := 9, value := (3:ℚ)/5, n := 2 } : Cell) ∈
      heatDF Row.capacityUtilization mixedDf 1 :=
  (heat_antitone mixedDf Row.capacityUtilization 1 2 (by norm_num)).1 _
    (by simp +decide [heatDF, heatKeys, heatRows, rowKey, heatCell, cellGroup,
        mixedDf, mixRow1, mixRow2]
        norm_num)

end AreveDashboard
